import Mathlib

/-
Verification development for scripts/examine_login.py.

The script drives a headless browser: it launches Chromium, opens a page with a
fixed viewport, navigates to a fixed URL, waits, takes a screenshot, and then
enumerates buttons, links, form inputs, Google-OAuth-related elements and main
containers, echoing what the automation library returns.

The embedding below models the observable behaviour of one run as a list of
events (library calls and console prints).  DOM data handed back by the library
is modelled by `Element` and `Page`; the fallible variant `PageE` lets every
library call either succeed or raise, so that propagation of failures and the
scope of the browser resource can be stated.
-/

namespace ExamineLogin

/-- A DOM element as the automation library hands it to the script: tag name
(as the DOM reports it, e.g. "BUTTON"), attribute list, rendered inner text,
and visibility. -/
structure Element where
  tagName : String
  attrs : List (String × String)
  innerText : String
  isVisible : Bool
deriving DecidableEq

/-- Attribute lookup, as `get_attribute`: the value when the attribute is
present, `none` otherwise. -/
def getAttr (e : Element) (name : String) : Option String :=
  (e.attrs.find? (fun kv => kv.fst == name)).map (fun kv => kv.snd)

/-- Python `x or d` on an optional string: `None` and the empty string are
falsy, anything else is returned unchanged. -/
def pyOr (x : Option String) (d : String) : String :=
  match x with
  | none => d
  | some s => if s = "" then d else s

/-- Python string slicing `s[:n]`: the first `n` characters. -/
def pyTake (s : String) (n : Nat) : String := String.mk (s.toList.take n)

/-- Does the second character list start with the first? -/
def startsWithChars : List Char → List Char → Bool
  | [], _ => true
  | _ :: _, [] => false
  | p :: ps, c :: cs => p == c && startsWithChars ps cs

/-- Does the list contain `pat` as a contiguous run? -/
def hasSubChars (pat : List Char) : List Char → Bool
  | [] => pat.isEmpty
  | c :: cs => startsWithChars pat (c :: cs) || hasSubChars pat cs

/-- CSS attribute-substring test `[a*=v]` on a value: `pat` occurs inside `s`. -/
def containsSub (s pat : String) : Bool := hasSubChars pat.toList s.toList

/-- Does attribute `name` exist on `e` with a value containing `pat`?
(An absent attribute matches nothing.) -/
def attrContains (e : Element) (name pat : String) : Bool :=
  match getAttr e name with
  | none => false
  | some v => containsSub v pat

/-- Split a character list on spaces (used for the HTML class list). -/
def splitSpaces (cur : List Char) : List Char → List (List Char)
  | [] => [cur.reverse]
  | c :: cs => if c = ' ' then cur.reverse :: splitSpaces [] cs else splitSpaces (c :: cur) cs

/-- The element's class list: the class attribute split on whitespace
(empty when the attribute is missing). -/
def classList (e : Element) : List (List Char) :=
  splitSpaces [] (pyOr (getAttr e "class") "").toList

/-- CSS class test `.c`: `c` is one of the element's classes. -/
def hasClass (e : Element) (c : String) : Bool := (classList e).contains c.toList

/-- CSS type selector test: HTML tag names are matched case-insensitively;
`t` is given in lowercase. -/
def matchesTag (e : Element) (t : String) : Bool :=
  e.tagName.toList.map Char.toLower == t.toList

/-- The URL hard-coded at line 8 of the script. -/
def fixedUrl : String := "http://localhost:5173/app"

/-- The screenshot path hard-coded at line 13 of the script. -/
def screenshotPath : String := "/tmp/login_page.png"

/-- The selector of line 51 of the script, looking for Google OAuth elements. -/
def googleSelector : String :=
  "[class*=\"google\"], [id*=\"google\"], [data-provider*=\"google\"]"

/-- The selector of line 59 of the script, looking for main containers. -/
def containerSelector : String :=
  ".auth-container, .login-container, [class*=\"auth\"], [class*=\"login\"], main, .app"

/-- An element matches the Google OAuth selector of line 51 exactly when its
class, id, or data-provider attribute value contains "google". -/
def googleMatch (e : Element) : Bool :=
  attrContains e "class" "google" || attrContains e "id" "google" ||
    attrContains e "data-provider" "google"

/-- An element matches the container selector of line 59. -/
def containerMatch (e : Element) : Bool :=
  hasClass e "auth-container" || hasClass e "login-container" ||
    attrContains e "class" "auth" || attrContains e "class" "login" ||
    matchesTag e "main" || hasClass e "app"

/-- `page.locator('button').all()`: the button elements in document order. -/
def queryButtons (dom : List Element) : List Element :=
  dom.filter (fun e => matchesTag e "button")

/-- `page.locator('a').all()`: the anchor elements in document order. -/
def queryLinks (dom : List Element) : List Element :=
  dom.filter (fun e => matchesTag e "a")

/-- `page.locator('input').all()`: the input elements in document order. -/
def queryInputs (dom : List Element) : List Element :=
  dom.filter (fun e => matchesTag e "input")

/-- The elements matching the Google OAuth selector, in document order. -/
def queryGoogle (dom : List Element) : List Element := dom.filter googleMatch

/-- The elements matching the container selector, in document order. -/
def queryContainers (dom : List Element) : List Element := dom.filter containerMatch

/-- Dispatch of the selectors the script uses to their match semantics. -/
def queryDOM (dom : List Element) (sel : String) : List Element :=
  if sel = "button" then queryButtons dom
  else if sel = "a" then queryLinks dom
  else if sel = "input" then queryInputs dom
  else if sel = googleSelector then queryGoogle dom
  else if sel = containerSelector then queryContainers dom
  else []

/-- Line 22: the body text is printed whole unless longer than 2000
characters, in which case the first 2000 characters are printed. -/
def printedBody (s : String) : String :=
  if s.length > 2000 then pyTake s 2000 else s

/-- Line 30: the button line, the class attribute defaulted to "" and then cut
to its first 50 characters. -/
def buttonLine (e : Element) : String :=
  "  Button: \x27" ++ e.innerText ++ "\x27 | class: " ++ pyTake (pyOr (getAttr e "class") "") 50

/-- Line 38: the link line, the href attribute defaulted to "". -/
def linkLine (e : Element) : String :=
  "  Link: \x27" ++ e.innerText ++ "\x27 -> " ++ pyOr (getAttr e "href") ""

/-- Line 47: the input line, type defaulted to "text", name and placeholder
defaulted to "". -/
def inputLine (e : Element) : String :=
  "  Input: type=" ++ pyOr (getAttr e "type") "text" ++ ", name=" ++
    pyOr (getAttr e "name") "" ++ ", placeholder=" ++ pyOr (getAttr e "placeholder") ""

/-- Line 55: the OAuth element line: DOM tag name, and the inner text only when
the element is visible. -/
def googleLine (e : Element) : String :=
  "  " ++ e.tagName ++ ": " ++ (if e.isVisible then e.innerText else "")

/-- Line 62: the container line, the class attribute defaulted to "". -/
def containerLine (e : Element) : String :=
  "  Container: " ++ pyOr (getAttr e "class") ""

/-- The page as the script observes it on a successful run: title, body inner
text, and the DOM in document order. -/
structure Page where
  title : String
  bodyInnerText : String
  dom : List Element
deriving DecidableEq

/-- One observable step of the run: a call into the automation library or a
console print. -/
inductive Event where
  | launch
  | newPage (width height : Nat)
  | goto (url : String)
  | waitForLoadState (state : String)
  | waitForTimeout (ms : Nat)
  | screenshot (path : String) (fullPage : Bool)
  | query (selector : String)
  | print (line : String)
  | close
  | stopDriver
deriving DecidableEq

/-- The full event trace of a successful run of the script on `pg`, line by
line from the source; `stopDriver` is the context-manager exit of
`sync_playwright`. -/
def scriptTrace (pg : Page) : List Event :=
  [Event.launch, Event.newPage 1280 900,
   Event.goto fixedUrl,
   Event.waitForLoadState "domcontentloaded",
   Event.waitForTimeout 2000,
   Event.screenshot screenshotPath true,
   Event.print "Screenshot saved to /tmp/login_page.png",
   Event.print ("\nPage title: " ++ pg.title),
   Event.print "\n--- Page Content ---",
   Event.query "body",
   Event.print (printedBody pg.bodyInnerText),
   Event.print "\n--- Buttons Found ---",
   Event.query "button"]
  ++ (queryButtons pg.dom).map (fun e => Event.print (buttonLine e))
  ++ [Event.print "\n--- Links Found ---", Event.query "a"]
  ++ (queryLinks pg.dom).map (fun e => Event.print (linkLine e))
  ++ [Event.print "\n--- Form Inputs Found ---", Event.query "input"]
  ++ (queryInputs pg.dom).map (fun e => Event.print (inputLine e))
  ++ [Event.print "\n--- Google OAuth Elements ---", Event.query googleSelector]
  ++ (queryGoogle pg.dom).map (fun e => Event.print (googleLine e))
  ++ [Event.print "\n--- Main Containers ---", Event.query containerSelector]
  ++ ((queryContainers pg.dom).take 5).map (fun e => Event.print (containerLine e))
  ++ [Event.close, Event.print "\nDone examining login page.", Event.stopDriver]

/-- The script as invoked from a command line: it defines no flags, reads
neither `sys.argv` nor `os.environ`, so the invocation inputs are taken and
ignored. -/
def scriptTraceWithArgs (_argv : List String) (_env : List (String × String))
    (pg : Page) : List Event :=
  scriptTrace pg

/-- The outcome of running a stretch of the script: the value and the event
trace so far, or the message of the exception the library raised together with
the trace up to that point. -/
inductive Res (α : Type) where
  | ok (a : α) (tr : List Event)
  | error (msg : String) (tr : List Event)
deriving DecidableEq

/-- A stretch of the script as a trace-accumulating, fallible computation. -/
def M (α : Type) : Type := List Event → Res α

/-- Sequencing: a raised exception skips the rest of the stretch. -/
def M.bind {α β : Type} (x : M α) (f : α → M β) : M β := fun tr =>
  match x tr with
  | Res.ok a tr' => f a tr'
  | Res.error msg tr' => Res.error msg tr'

instance : Monad M where
  pure a := fun tr => Res.ok a tr
  bind := M.bind

/-- Record one observable step. -/
def emit (ev : Event) : M Unit := fun tr => Res.ok () (tr ++ [ev])

/-- The outcome the library gives back for one call. -/
def liftE {α : Type} (r : Except String α) : M α := fun tr =>
  match r with
  | Except.ok a => Res.ok a tr
  | Except.error msg => Res.error msg tr

/-- One library call: the step is recorded, then its outcome is forced. -/
def callE {α : Type} (ev : Event) (r : Except String α) : M α :=
  emit ev >>= fun _ => liftE r

/-- One `print(...)` statement. -/
def emitPrint (s : String) : M Unit := emit (Event.print s)

/-- One of the script's `for` loops: print one line per element, in order. -/
def printAll (f : Element → String) : List Element → M Unit
  | [] => pure ()
  | e :: es => emitPrint (f e) >>= fun _ => printAll f es

/-- The page with every library call fallible: each field is the outcome the
automation library produces for that call on this particular run. -/
structure PageE where
  launchR : Except String Unit
  newPageR : Except String Unit
  gotoR : String → Except String Unit
  waitForLoadStateR : String → Except String Unit
  waitForTimeoutR : Nat → Except String Unit
  screenshotR : String → Bool → Except String Unit
  titleR : Except String String
  bodyInnerTextR : Except String String
  queryAllR : String → Except String (List Element)
  closeR : Except String Unit

/-- Lines 5-65 of the script (everything inside the `with` block after the
browser launch), call for call. -/
def scriptRest (p : PageE) : M Unit := do
  callE (Event.newPage 1280 900) p.newPageR
  callE (Event.goto fixedUrl) (p.gotoR fixedUrl)
  callE (Event.waitForLoadState "domcontentloaded") (p.waitForLoadStateR "domcontentloaded")
  callE (Event.waitForTimeout 2000) (p.waitForTimeoutR 2000)
  callE (Event.screenshot screenshotPath true) (p.screenshotR screenshotPath true)
  emitPrint "Screenshot saved to /tmp/login_page.png"
  let t ← liftE p.titleR
  emitPrint ("\nPage title: " ++ t)
  emitPrint "\n--- Page Content ---"
  let bodyText ← callE (Event.query "body") p.bodyInnerTextR
  emitPrint (printedBody bodyText)
  emitPrint "\n--- Buttons Found ---"
  let buttons ← callE (Event.query "button") (p.queryAllR "button")
  printAll buttonLine buttons
  emitPrint "\n--- Links Found ---"
  let links ← callE (Event.query "a") (p.queryAllR "a")
  printAll linkLine links
  emitPrint "\n--- Form Inputs Found ---"
  let inputs ← callE (Event.query "input") (p.queryAllR "input")
  printAll inputLine inputs
  emitPrint "\n--- Google OAuth Elements ---"
  let googleElements ← callE (Event.query googleSelector) (p.queryAllR googleSelector)
  printAll googleLine googleElements
  emitPrint "\n--- Main Containers ---"
  let containers ← callE (Event.query containerSelector) (p.queryAllR containerSelector)
  printAll containerLine (containers.take 5)
  callE Event.close p.closeR
  emitPrint "\nDone examining login page."

/-- The body of the `with` block: launch the browser, then the rest. -/
def scriptBody (p : PageE) : M Unit :=
  callE Event.launch p.launchR >>= fun _ => scriptRest p

/-- The `with sync_playwright() as p:` statement: its exit handler runs on the
normal path and on the exception path alike, shutting the driver (and with it
the browser session) down, and an exception is re-raised unchanged. -/
def withPlaywright (body : M Unit) : M Unit := fun tr =>
  match body tr with
  | Res.ok _ tr' => Res.ok () (tr' ++ [Event.stopDriver])
  | Res.error msg tr' => Res.error msg (tr' ++ [Event.stopDriver])

/-- One whole run of the script against the outcomes `p`. -/
def runScript (p : PageE) : Res Unit := withPlaywright (scriptBody p) []

/-- The event trace of an outcome, successful or not. -/
def traceOf {α : Type} : Res α → List Event
  | Res.ok _ tr => tr
  | Res.error _ tr => tr

/-- The infallible page `pg`, seen as outcomes: every call succeeds and the
queries answer from the DOM. -/
def PageE.ofPage (pg : Page) : PageE where
  launchR := Except.ok ()
  newPageR := Except.ok ()
  gotoR := fun _ => Except.ok ()
  waitForLoadStateR := fun _ => Except.ok ()
  waitForTimeoutR := fun _ => Except.ok ()
  screenshotR := fun _ _ => Except.ok ()
  titleR := Except.ok pg.title
  bodyInnerTextR := Except.ok pg.bodyInnerText
  queryAllR := fun sel => Except.ok (queryDOM pg.dom sel)
  closeR := Except.ok ()

/-- Is the event a navigation or a wait? -/
def isNavOrWaitEvent : Event → Bool
  | Event.goto _ => true
  | Event.waitForLoadState _ => true
  | Event.waitForTimeout _ => true
  | _ => false

/-- Is the event a wait of either kind? -/
def isWaitEvent : Event → Bool
  | Event.waitForLoadState _ => true
  | Event.waitForTimeout _ => true
  | _ => false

/-- Is the event a literal fixed-duration delay?  A load-state wait is not: it
blocks until a page condition holds. -/
def isFixedDelayWait : Event → Bool
  | Event.waitForTimeout _ => true
  | _ => false

/-- Is the event a navigation? -/
def isGotoEvent : Event → Bool
  | Event.goto _ => true
  | _ => false

/-- Is the event the page creation (carrying the viewport)? -/
def isNewPageEvent : Event → Bool
  | Event.newPage _ _ => true
  | _ => false

/-- Is the event the screenshot call? -/
def isScreenshotEvent : Event → Bool
  | Event.screenshot _ _ => true
  | _ => false

/-- Is the event the fixed timeout call? -/
def isTimeoutEvent : Event → Bool
  | Event.waitForTimeout _ => true
  | _ => false

/-- Is the event the screenshot call or a DOM query? -/
def isScreenshotOrQuery : Event → Bool
  | Event.screenshot _ _ => true
  | Event.query _ => true
  | _ => false

/-- Modelled from the spec sentence behind claim C3 ("direct pass-through …,
no transformation"): the button line with the class value echoed whole, not
cut to 50 characters (missing attributes still defaulted, as claim C9 records
separately). -/
def buttonLineUncut (e : Element) : String :=
  "  Button: \x27" ++ e.innerText ++ "\x27 | class: " ++ pyOr (getAttr e "class") ""

/-- A page with nothing on it, used to instantiate universally quantified
statements. -/
def pgEmpty : Page := { title := "", bodyInnerText := "", dom := [] }

/-- A 2001-character body text. -/
def sLong : String := String.mk (List.replicate 2001 'a')

/-- A 51-character class value. -/
def longClass : String := String.mk (List.replicate 51 'x')

/-- A button whose class attribute is 51 characters long. -/
def eLongClass : Element :=
  { tagName := "BUTTON", attrs := [("class", longClass)], innerText := "Go",
    isVisible := true }

/-- A page whose only element is the long-classed button. -/
def pgLongClass : Page :=
  { title := "T", bodyInnerText := "body", dom := [eLongClass] }

/-- An element carrying "google" only in its data-provider attribute. -/
def eProvider : Element :=
  { tagName := "BUTTON", attrs := [("data-provider", "google")],
    innerText := "Continue with Google", isVisible := true }

/-- A page whose only element is the data-provider-only OAuth button. -/
def pgProvider : Page :=
  { title := "App", bodyInnerText := "Sign in", dom := [eProvider] }

/-- An element with no attributes at all. -/
def eBare : Element :=
  { tagName := "INPUT", attrs := [], innerText := "", isVisible := true }

/-- Outcomes for a run on which navigation raises (the page is unreachable)
and every other call would succeed. -/
def pgGotoFail : PageE where
  launchR := Except.ok ()
  newPageR := Except.ok ()
  gotoR := fun _ => Except.error "net::ERR_CONNECTION_REFUSED"
  waitForLoadStateR := fun _ => Except.ok ()
  waitForTimeoutR := fun _ => Except.ok ()
  screenshotR := fun _ _ => Except.ok ()
  titleR := Except.ok ""
  bodyInnerTextR := Except.ok ""
  queryAllR := fun _ => Except.ok []
  closeR := Except.ok ()


lemma bind_apply {α β : Type} (x : M α) (f : α → M β) (tr : List Event) :
    (x >>= f) tr = (match x tr with
      | Res.ok a tr' => f a tr'
      | Res.error msg tr' => Res.error msg tr') := rfl

lemma pure_apply {α : Type} (a : α) (tr : List Event) : (pure a : M α) tr = Res.ok a tr := rfl

lemma emit_apply (ev : Event) (tr : List Event) : emit ev tr = Res.ok () (tr ++ [ev]) := rfl

lemma liftE_ok {α : Type} (a : α) (tr : List Event) :
    liftE (Except.ok a) tr = Res.ok a tr := rfl

lemma liftE_error {α : Type} (msg : String) (tr : List Event) :
    liftE (Except.error msg : Except String α) tr = Res.error msg tr := rfl

lemma emitPrint_apply (s : String) (tr : List Event) :
    emitPrint s tr = Res.ok () (tr ++ [Event.print s]) := rfl

lemma callE_ok {α : Type} (ev : Event) (a : α) (tr : List Event) :
    callE ev (Except.ok a) tr = Res.ok a (tr ++ [ev]) := rfl

lemma callE_error {α : Type} (ev : Event) (msg : String) (tr : List Event) :
    callE ev (Except.error msg : Except String α) tr = Res.error msg (tr ++ [ev]) := rfl

lemma printAll_apply (f : Element → String) :
    ∀ (l : List Element) (tr : List Event),
      printAll f l tr = Res.ok () (tr ++ l.map (fun e => Event.print (f e)))
  | [], tr => by simp [printAll, pure_apply]
  | e :: es, tr => by
      simp [printAll, bind_apply, emitPrint_apply, printAll_apply f es]

lemma queryDOM_button (dom : List Element) : queryDOM dom "button" = queryButtons dom := rfl

lemma queryDOM_a (dom : List Element) : queryDOM dom "a" = queryLinks dom := rfl

lemma queryDOM_input (dom : List Element) : queryDOM dom "input" = queryInputs dom := rfl

lemma queryDOM_google (dom : List Element) : queryDOM dom googleSelector = queryGoogle dom := rfl

lemma queryDOM_container (dom : List Element) :
    queryDOM dom containerSelector = queryContainers dom := rfl

/-- On an infallible page the fallible run succeeds and its trace is exactly
`scriptTrace`: the two views of the script agree. -/
lemma runScript_ofPage (pg : Page) :
    runScript (PageE.ofPage pg) = Res.ok () (scriptTrace pg) := by
  simp [runScript, withPlaywright, scriptBody, scriptRest, PageE.ofPage,
    bind_apply, callE_ok, emitPrint_apply, liftE_ok, printAll_apply, pure_apply,
    queryDOM_button, queryDOM_a, queryDOM_input, queryDOM_google, queryDOM_container,
    scriptTrace, List.append_assoc]

/-- A stretch of the script only ever appends to the trace it is given. -/
def ExtendsTrace {α : Type} (m : M α) : Prop :=
  ∀ tr : List Event, ∃ suffix : List Event, traceOf (m tr) = tr ++ suffix

lemma extendsTrace_bind {α β : Type} {x : M α} {f : α → M β}
    (hx : ExtendsTrace x) (hf : ∀ a, ExtendsTrace (f a)) : ExtendsTrace (x >>= f) := by
  intro tr
  rcases h : x tr with ⟨a, tr'⟩ | ⟨msg, tr'⟩
  · rcases hx tr with ⟨s1, hs1⟩
    rw [h] at hs1
    simp only [traceOf] at hs1
    rcases hf a tr' with ⟨s2, hs2⟩
    refine ⟨s1 ++ s2, ?_⟩
    rw [bind_apply, h, hs2, hs1, List.append_assoc]
  · rcases hx tr with ⟨s1, hs1⟩
    rw [h] at hs1
    simp only [traceOf] at hs1
    refine ⟨s1, ?_⟩
    rw [bind_apply, h]
    simpa [traceOf] using hs1

lemma extendsTrace_pure {α : Type} (a : α) : ExtendsTrace (pure a : M α) :=
  fun tr => ⟨[], by simp [pure_apply, traceOf]⟩

lemma extendsTrace_emit (ev : Event) : ExtendsTrace (emit ev) :=
  fun tr => ⟨[ev], by simp [emit_apply, traceOf]⟩

lemma extendsTrace_liftE {α : Type} (r : Except String α) : ExtendsTrace (liftE r) := by
  intro tr
  cases r with
  | ok a => exact ⟨[], by simp [liftE_ok, traceOf]⟩
  | error msg => exact ⟨[], by simp [liftE_error, traceOf]⟩

lemma extendsTrace_callE {α : Type} (ev : Event) (r : Except String α) :
    ExtendsTrace (callE ev r) :=
  extendsTrace_bind (extendsTrace_emit ev) (fun _ => extendsTrace_liftE r)

lemma extendsTrace_emitPrint (s : String) : ExtendsTrace (emitPrint s) :=
  extendsTrace_emit (Event.print s)

lemma extendsTrace_printAll (f : Element → String) :
    ∀ l : List Element, ExtendsTrace (printAll f l)
  | [] => extendsTrace_pure ()
  | e :: es =>
    extendsTrace_bind (extendsTrace_emitPrint (f e))
      (fun _ => extendsTrace_printAll f es)

lemma extendsTrace_scriptRest (p : PageE) : ExtendsTrace (scriptRest p) := by
  unfold scriptRest
  exact
    extendsTrace_bind (extendsTrace_callE _ _) (fun _ =>
    extendsTrace_bind (extendsTrace_callE _ _) (fun _ =>
    extendsTrace_bind (extendsTrace_callE _ _) (fun _ =>
    extendsTrace_bind (extendsTrace_callE _ _) (fun _ =>
    extendsTrace_bind (extendsTrace_callE _ _) (fun _ =>
    extendsTrace_bind (extendsTrace_emitPrint _) (fun _ =>
    extendsTrace_bind (extendsTrace_liftE _) (fun _ =>
    extendsTrace_bind (extendsTrace_emitPrint _) (fun _ =>
    extendsTrace_bind (extendsTrace_emitPrint _) (fun _ =>
    extendsTrace_bind (extendsTrace_callE _ _) (fun _ =>
    extendsTrace_bind (extendsTrace_emitPrint _) (fun _ =>
    extendsTrace_bind (extendsTrace_emitPrint _) (fun _ =>
    extendsTrace_bind (extendsTrace_callE _ _) (fun _ =>
    extendsTrace_bind (extendsTrace_printAll _ _) (fun _ =>
    extendsTrace_bind (extendsTrace_emitPrint _) (fun _ =>
    extendsTrace_bind (extendsTrace_callE _ _) (fun _ =>
    extendsTrace_bind (extendsTrace_printAll _ _) (fun _ =>
    extendsTrace_bind (extendsTrace_emitPrint _) (fun _ =>
    extendsTrace_bind (extendsTrace_callE _ _) (fun _ =>
    extendsTrace_bind (extendsTrace_printAll _ _) (fun _ =>
    extendsTrace_bind (extendsTrace_emitPrint _) (fun _ =>
    extendsTrace_bind (extendsTrace_callE _ _) (fun _ =>
    extendsTrace_bind (extendsTrace_printAll _ _) (fun _ =>
    extendsTrace_bind (extendsTrace_emitPrint _) (fun _ =>
    extendsTrace_bind (extendsTrace_callE _ _) (fun _ =>
    extendsTrace_bind (extendsTrace_printAll _ _) (fun _ =>
    extendsTrace_bind (extendsTrace_callE _ _) (fun _ =>
    extendsTrace_emitPrint _)))))))))))))))))))))))))))

/-- The trace of the whole `with` block is the trace of its body with the
driver shutdown appended, on the normal and on the exception path alike. -/
lemma traceOf_withPlaywright (body : M Unit) (tr : List Event) :
    traceOf (withPlaywright body tr) = traceOf (body tr) ++ [Event.stopDriver] := by
  rcases h : body tr with ⟨a, tr'⟩ | ⟨msg, tr'⟩ <;>
    simp [withPlaywright, h, traceOf]

lemma filter_print_map (p : Event → Bool) (hp : ∀ s, p (Event.print s) = false)
    (f : Element → String) : ∀ l : List Element,
      List.filter p (l.map (fun e => Event.print (f e))) = []
  | [] => rfl
  | e :: es => by
      simp [List.filter_cons, hp, filter_print_map p hp f es]

lemma filter_navwait_map (f : Element → String) (l : List Element) :
    List.filter isNavOrWaitEvent (l.map (fun e => Event.print (f e))) = [] :=
  filter_print_map _ (fun _ => rfl) f l

lemma filter_goto_map (f : Element → String) (l : List Element) :
    List.filter isGotoEvent (l.map (fun e => Event.print (f e))) = [] :=
  filter_print_map _ (fun _ => rfl) f l

lemma filter_newpage_map (f : Element → String) (l : List Element) :
    List.filter isNewPageEvent (l.map (fun e => Event.print (f e))) = [] :=
  filter_print_map _ (fun _ => rfl) f l

lemma filter_screenshot_map (f : Element → String) (l : List Element) :
    List.filter isScreenshotEvent (l.map (fun e => Event.print (f e))) = [] :=
  filter_print_map _ (fun _ => rfl) f l

lemma filter_timeout_map (f : Element → String) (l : List Element) :
    List.filter isTimeoutEvent (l.map (fun e => Event.print (f e))) = [] :=
  filter_print_map _ (fun _ => rfl) f l

lemma filter_scrquery_map (f : Element → String) (l : List Element) :
    List.filter isScreenshotOrQuery (l.map (fun e => Event.print (f e))) = [] :=
  filter_print_map _ (fun _ => rfl) f l

lemma sublist_skipList {S T : List Event} (junk : List Event)
    (h : List.Sublist S T) : List.Sublist S (junk ++ T) := by
  induction junk with
  | nil => simpa using h
  | cons a js ih => exact List.Sublist.cons a ih

lemma pyTake_empty (n : Nat) : pyTake "" n = "" := by
  show String.mk (List.take n []) = ""
  rw [List.take_nil]

lemma pyOr_none (d : String) : pyOr none d = d := rfl

/-- C1: the printed page body is governed by the single conditional of line
22 against the fixed 2000-character budget: the trace prints
`printedBody bodyInnerText`; a body longer than 2000 characters is printed as
exactly its first 2000 characters (a 2000-character result), and a body of at
most 2000 characters is printed unchanged. -/
theorem c1_body_truncation (pg : Page) (s : String) :
    Event.print (printedBody pg.bodyInnerText) ∈ scriptTrace pg ∧
    (2000 < s.length →
      printedBody s = pyTake s 2000 ∧ (printedBody s).length = 2000) ∧
    (s.length ≤ 2000 → printedBody s = s) := by
  refine ⟨?_, fun h => ⟨?_, ?_⟩, fun h => ?_⟩
  · simp [scriptTrace]
  · simp only [printedBody]
    rw [if_pos (by omega)]
  · simp only [printedBody]
    rw [if_pos (by omega)]
    show (s.toList.take 2000).length = 2000
    rw [List.length_take]
    have hh : 2000 < s.toList.length := h
    omega
  · simp only [printedBody]
    rw [if_neg (by omega)]

/-- Witness for C1 at concrete inputs: a 2001-character body is cut to its
first 2000 characters, a 2-character body is echoed unchanged. -/
theorem c1_body_truncation_witness :
    (2000 < sLong.length ∧ printedBody sLong = pyTake sLong 2000) ∧
    (("ok" : String).length ≤ 2000 ∧ printedBody "ok" = "ok") :=
  ⟨⟨by show 2000 < (List.replicate 2001 'a').length; rw [List.length_replicate]; omega,
    ((c1_body_truncation pgEmpty sLong).2.1
      (by show 2000 < (List.replicate 2001 'a').length; rw [List.length_replicate]; omega)).1⟩,
   ⟨by decide, (c1_body_truncation pgEmpty "ok").2.2 (by decide)⟩⟩

/-- Counterexample to C2 as stated: not every wait the script performs after
navigating is a literal fixed-duration delay.  Line 9 waits for the
"domcontentloaded" load state - a condition-based wait - before the fixed
2000 ms delay of line 10. -/
theorem c2_counterexample :
    ¬ (∀ ev ∈ scriptTrace pgEmpty, isWaitEvent ev = true → isFixedDelayWait ev = true) := by
  decide

/-- C2 amended: after navigating to the fixed URL the script performs exactly
one load-state wait (for "domcontentloaded") followed by exactly one literal
fixed 2000 ms delay; there is no retry and no backoff: on every run the
navigation happens once and each wait happens once, in that order. -/
theorem c2_single_navigation_and_waits (pg : Page) :
    List.filter isNavOrWaitEvent (scriptTrace pg) =
      [Event.goto fixedUrl, Event.waitForLoadState "domcontentloaded",
       Event.waitForTimeout 2000] := by
  simp [scriptTrace, List.filter_append, filter_navwait_map, List.filter_cons,
    isNavOrWaitEvent]
  intro a ha
  have hm := List.take_subset 5 _ ha
  obtain ⟨e, _, rfl⟩ := List.mem_map.mp hm
  rfl

/-- Counterexample to C3 as stated: printing is not a transformation-free echo
of what the library returns.  For a button whose class value is 51 characters
long, the printed button line carries only the first 50 characters (line 30),
and the uncut line is never printed. -/
theorem c3_counterexample :
    eLongClass ∈ queryButtons pgLongClass.dom ∧
    Event.print (buttonLine eLongClass) ∈ scriptTrace pgLongClass ∧
    buttonLine eLongClass ≠ buttonLineUncut eLongClass ∧
    Event.print (buttonLineUncut eLongClass) ∉ scriptTrace pgLongClass := by
  decide

/-- C3 amended: the button, link and input sections echo the library results
one line per matched element, in the library's match order, each line built
only from that element's own text and attribute values - no aggregation, no
reordering - except that the button class value is cut to its first 50
characters and missing attributes are replaced by fixed defaults. -/
theorem c3_per_element_passthrough (pg : Page) :
    ∃ pre mid1 mid2 post,
      scriptTrace pg =
        pre
        ++ (queryButtons pg.dom).map (fun e =>
              Event.print ("  Button: \x27" ++ e.innerText ++ "\x27 | class: " ++
                pyTake (pyOr (getAttr e "class") "") 50))
        ++ mid1
        ++ (queryLinks pg.dom).map (fun e =>
              Event.print ("  Link: \x27" ++ e.innerText ++ "\x27 -> " ++
                pyOr (getAttr e "href") ""))
        ++ mid2
        ++ (queryInputs pg.dom).map (fun e =>
              Event.print ("  Input: type=" ++ pyOr (getAttr e "type") "text" ++
                ", name=" ++ pyOr (getAttr e "name") "" ++
                ", placeholder=" ++ pyOr (getAttr e "placeholder") ""))
        ++ post := by
  refine ⟨[Event.launch, Event.newPage 1280 900, Event.goto fixedUrl,
    Event.waitForLoadState "domcontentloaded", Event.waitForTimeout 2000,
    Event.screenshot screenshotPath true,
    Event.print "Screenshot saved to /tmp/login_page.png",
    Event.print ("\nPage title: " ++ pg.title),
    Event.print "\n--- Page Content ---",
    Event.query "body",
    Event.print (printedBody pg.bodyInnerText),
    Event.print "\n--- Buttons Found ---",
    Event.query "button"],
    [Event.print "\n--- Links Found ---", Event.query "a"],
    [Event.print "\n--- Form Inputs Found ---", Event.query "input"],
    [Event.print "\n--- Google OAuth Elements ---", Event.query googleSelector]
      ++ (queryGoogle pg.dom).map (fun e => Event.print (googleLine e))
      ++ [Event.print "\n--- Main Containers ---", Event.query containerSelector]
      ++ ((queryContainers pg.dom).take 5).map (fun e => Event.print (containerLine e))
      ++ [Event.close, Event.print "\nDone examining login page.", Event.stopDriver],
    ?_⟩
  simp [scriptTrace, buttonLine, linkLine, inputLine, List.append_assoc]

/-- C4: a failure raised by the automation library propagates unhandled and
ends the run with the library's own message: if the browser launch raises, the
run stops at once; if navigation raises (page unreachable), it stops right
after the navigation call; if the button query raises, it stops right after
that query - in each case nothing of the failed step's section is printed, no
report of the script's own appears, and only the context-manager shutdown
still runs. -/
theorem c4_error_propagation (p : PageE) (e t b : String) :
    (p.launchR = Except.error e →
      runScript p = Res.error e [Event.launch, Event.stopDriver]) ∧
    (p.launchR = Except.ok () → p.newPageR = Except.ok () →
      p.gotoR fixedUrl = Except.error e →
      runScript p = Res.error e
        [Event.launch, Event.newPage 1280 900, Event.goto fixedUrl,
         Event.stopDriver]) ∧
    (p.launchR = Except.ok () → p.newPageR = Except.ok () →
      p.gotoR fixedUrl = Except.ok () →
      p.waitForLoadStateR "domcontentloaded" = Except.ok () →
      p.waitForTimeoutR 2000 = Except.ok () →
      p.screenshotR screenshotPath true = Except.ok () →
      p.titleR = Except.ok t → p.bodyInnerTextR = Except.ok b →
      p.queryAllR "button" = Except.error e →
      runScript p = Res.error e
        [Event.launch, Event.newPage 1280 900, Event.goto fixedUrl,
         Event.waitForLoadState "domcontentloaded", Event.waitForTimeout 2000,
         Event.screenshot screenshotPath true,
         Event.print "Screenshot saved to /tmp/login_page.png",
         Event.print ("\nPage title: " ++ t),
         Event.print "\n--- Page Content ---",
         Event.query "body",
         Event.print (printedBody b),
         Event.print "\n--- Buttons Found ---",
         Event.query "button", Event.stopDriver]) := by
  refine ⟨fun h1 => ?_, fun h1 h2 h3 => ?_, fun h1 h2 h3 h4 h5 h6 h7 h8 h9 => ?_⟩
  · simp [runScript, withPlaywright, scriptBody, scriptRest, bind_apply,
      callE_ok, callE_error, emit_apply, liftE_ok, liftE_error, emitPrint_apply,
      h1]
  · simp [runScript, withPlaywright, scriptBody, scriptRest, bind_apply,
      callE_ok, callE_error, emit_apply, liftE_ok, liftE_error, emitPrint_apply,
      h1, h2, h3]
  · simp [runScript, withPlaywright, scriptBody, scriptRest, bind_apply,
      callE_ok, callE_error, emit_apply, liftE_ok, liftE_error, emitPrint_apply,
      h1, h2, h3, h4, h5, h6, h7, h8, h9]

/-- Witness for C4: a run on which navigation raises a connection failure
stops right there, with the library's message, and nothing else happens except
the guaranteed driver shutdown. -/
theorem c4_error_propagation_witness :
    runScript pgGotoFail = Res.error "net::ERR_CONNECTION_REFUSED"
      [Event.launch, Event.newPage 1280 900, Event.goto fixedUrl,
       Event.stopDriver] :=
  (c4_error_propagation pgGotoFail "net::ERR_CONNECTION_REFUSED" "" "").2.1
    rfl rfl rfl

/-- C5: the browser session is the single scoped resource: whatever outcome
every library call has on a run - including an exception raised partway
through - the trace opens with the launch acquired at the start of the `with`
scope and closes with the driver shutdown of the context-manager exit, so the
session is released on every exit path. -/
theorem c5_resource_released_on_every_path (p : PageE) :
    ∃ mid : List Event,
      traceOf (runScript p) = Event.launch :: (mid ++ [Event.stopDriver]) := by
  unfold runScript
  rw [traceOf_withPlaywright]
  cases hl : p.launchR with
  | error msg =>
      refine ⟨[], ?_⟩
      simp [scriptBody, bind_apply, callE_error, emit_apply, liftE_error, hl,
        traceOf]
  | ok a =>
      have hb : scriptBody p [] = scriptRest p [Event.launch] := by
        simp [scriptBody, bind_apply, callE_ok, emit_apply, liftE_ok, hl]
      obtain ⟨suffix, hs⟩ := extendsTrace_scriptRest p [Event.launch]
      refine ⟨suffix, ?_⟩
      rw [hb, hs]
      simp

/-- C6: the script's behaviour is set by hard-coded constants only: the run is
the same function of the page whatever argv and environment are, and on every
run there is exactly one navigation (to the fixed URL), one page creation
(with the fixed 1280x900 viewport), one wait call of fixed 2000 ms, and one
screenshot write (to the fixed path, full-page). -/
theorem c6_fixed_configuration (argv1 argv2 : List String)
    (env1 env2 : List (String × String)) (pg : Page) :
    scriptTraceWithArgs argv1 env1 pg = scriptTraceWithArgs argv2 env2 pg ∧
    List.filter isGotoEvent (scriptTrace pg) = [Event.goto fixedUrl] ∧
    List.filter isNewPageEvent (scriptTrace pg) = [Event.newPage 1280 900] ∧
    List.filter isTimeoutEvent (scriptTrace pg) = [Event.waitForTimeout 2000] ∧
    List.filter isScreenshotEvent (scriptTrace pg) =
      [Event.screenshot screenshotPath true] := by
  refine ⟨rfl, ?_, ?_, ?_, ?_⟩ <;>
  · simp [scriptTrace, List.filter_append, filter_goto_map, filter_newpage_map,
      filter_timeout_map, filter_screenshot_map, List.filter_cons,
      isGotoEvent, isNewPageEvent, isTimeoutEvent, isScreenshotEvent]
    intro a ha
    have hm := List.take_subset 5 _ ha
    obtain ⟨x, _, rfl⟩ := List.mem_map.mp hm
    rfl

/-- Counterexample to C7 as stated: the OAuth section does not match on class
and id only.  An element whose sole attribute is data-provider="google" is
matched by the selector of line 51 and reported, although neither its class
nor its id contains the provider substring. -/
theorem c7_counterexample :
    eProvider ∈ queryGoogle pgProvider.dom ∧
    Event.print (googleLine eProvider) ∈ scriptTrace pgProvider ∧
    attrContains eProvider "class" "google" = false ∧
    attrContains eProvider "id" "google" = false := by
  decide

/-- C7 amended: OAuth elements are identified heuristically by substring
matching on the class, id and data-provider attributes: an element of the page
is in the Google OAuth list exactly when its class, id, or data-provider
attribute value contains "google", and the section prints one line per listed
element. -/
theorem c7_oauth_heuristic (pg : Page) (e : Element) :
    (e ∈ queryGoogle pg.dom ↔ e ∈ pg.dom ∧
      (attrContains e "class" "google" || attrContains e "id" "google" ||
        attrContains e "data-provider" "google") = true) ∧
    ∃ pre post,
      scriptTrace pg =
        pre ++ (queryGoogle pg.dom).map (fun x => Event.print (googleLine x))
          ++ post := by
  constructor
  · simp [queryGoogle, List.mem_filter, googleMatch]
  · refine ⟨[Event.launch, Event.newPage 1280 900, Event.goto fixedUrl,
      Event.waitForLoadState "domcontentloaded", Event.waitForTimeout 2000,
      Event.screenshot screenshotPath true,
      Event.print "Screenshot saved to /tmp/login_page.png",
      Event.print ("\nPage title: " ++ pg.title),
      Event.print "\n--- Page Content ---",
      Event.query "body",
      Event.print (printedBody pg.bodyInnerText),
      Event.print "\n--- Buttons Found ---",
      Event.query "button"]
      ++ (queryButtons pg.dom).map (fun x => Event.print (buttonLine x))
      ++ [Event.print "\n--- Links Found ---", Event.query "a"]
      ++ (queryLinks pg.dom).map (fun x => Event.print (linkLine x))
      ++ [Event.print "\n--- Form Inputs Found ---", Event.query "input"]
      ++ (queryInputs pg.dom).map (fun x => Event.print (inputLine x))
      ++ [Event.print "\n--- Google OAuth Elements ---",
          Event.query googleSelector],
      [Event.print "\n--- Main Containers ---", Event.query containerSelector]
      ++ ((queryContainers pg.dom).take 5).map
           (fun x => Event.print (containerLine x))
      ++ [Event.close, Event.print "\nDone examining login page.",
          Event.stopDriver], ?_⟩
    simp [scriptTrace, List.append_assoc]

/-- C8: the run is one fixed sequence: on every page the screenshot call comes
before every DOM query, and the output sections occur in the fixed order
screenshot notice, title, page content, buttons, links, inputs, OAuth
elements, containers, done message. -/
theorem c8_fixed_order (pg : Page) :
    List.filter isScreenshotOrQuery (scriptTrace pg) =
      [Event.screenshot screenshotPath true, Event.query "body",
       Event.query "button", Event.query "a", Event.query "input",
       Event.query googleSelector, Event.query containerSelector] ∧
    List.Sublist
      [Event.print "Screenshot saved to /tmp/login_page.png",
       Event.print ("\nPage title: " ++ pg.title),
       Event.print "\n--- Page Content ---",
       Event.print "\n--- Buttons Found ---",
       Event.print "\n--- Links Found ---",
       Event.print "\n--- Form Inputs Found ---",
       Event.print "\n--- Google OAuth Elements ---",
       Event.print "\n--- Main Containers ---",
       Event.print "\nDone examining login page."]
      (scriptTrace pg) := by
  constructor
  · simp [scriptTrace, List.filter_append, filter_scrquery_map,
      List.filter_cons, isScreenshotOrQuery]
    intro a ha
    have hm := List.take_subset 5 _ ha
    obtain ⟨x, _, rfl⟩ := List.mem_map.mp hm
    rfl
  · simp only [scriptTrace, List.append_assoc, List.cons_append,
      List.nil_append]
    apply List.Sublist.cons
    apply List.Sublist.cons
    apply List.Sublist.cons
    apply List.Sublist.cons
    apply List.Sublist.cons
    apply List.Sublist.cons
    apply List.Sublist.cons₂
    apply List.Sublist.cons₂
    apply List.Sublist.cons₂
    apply List.Sublist.cons
    apply List.Sublist.cons
    apply List.Sublist.cons₂
    apply List.Sublist.cons
    apply sublist_skipList
    apply List.Sublist.cons₂
    apply List.Sublist.cons
    apply sublist_skipList
    apply List.Sublist.cons₂
    apply List.Sublist.cons
    apply sublist_skipList
    apply List.Sublist.cons₂
    apply List.Sublist.cons
    apply sublist_skipList
    apply List.Sublist.cons₂
    apply List.Sublist.cons
    apply sublist_skipList
    apply List.Sublist.cons
    apply List.Sublist.cons₂
    exact List.nil_sublist _

/-- C9: a missing attribute is replaced by a default rather than printed as a
missing-value marker: an absent input type prints as "text"; an absent button
class, link href, input name, or input placeholder prints as the empty
string. -/
theorem c9_missing_attribute_defaults (btn lnk inp1 inp2 inp3 : Element) :
    (getAttr btn "class" = none →
      buttonLine btn = "  Button: \x27" ++ btn.innerText ++ "\x27 | class: ") ∧
    (getAttr lnk "href" = none →
      linkLine lnk = "  Link: \x27" ++ lnk.innerText ++ "\x27 -> ") ∧
    (getAttr inp1 "type" = none →
      inputLine inp1 = "  Input: type=text, name=" ++
        pyOr (getAttr inp1 "name") "" ++ ", placeholder=" ++
        pyOr (getAttr inp1 "placeholder") "") ∧
    (getAttr inp2 "name" = none →
      inputLine inp2 = "  Input: type=" ++ pyOr (getAttr inp2 "type") "text" ++
        ", name=, placeholder=" ++ pyOr (getAttr inp2 "placeholder") "") ∧
    (getAttr inp3 "placeholder" = none →
      inputLine inp3 = "  Input: type=" ++ pyOr (getAttr inp3 "type") "text" ++
        ", name=" ++ pyOr (getAttr inp3 "name") "" ++ ", placeholder=") := by
  refine ⟨fun h => ?_, fun h => ?_, fun h => ?_, fun h => ?_, fun h => ?_⟩
  · simp only [buttonLine, h, pyOr_none, pyTake_empty, String.append_empty]
  · simp only [linkLine, h, pyOr_none, String.append_empty]
  · simp [inputLine, h, pyOr_none, String.append_assoc]
  · simp [inputLine, h, pyOr_none, String.append_assoc]
  · simp [inputLine, h, pyOr_none, String.append_empty, String.append_assoc]

/-- Witness for C9: an element with no attributes at all gets the default
class rendering in the button line and the default type, name and placeholder
in the input line. -/
theorem c9_missing_attribute_defaults_witness :
    buttonLine eBare = "  Button: \x27" ++ eBare.innerText ++ "\x27 | class: " ∧
    inputLine eBare = "  Input: type=text, name=" ++
      pyOr (getAttr eBare "name") "" ++ ", placeholder=" ++
      pyOr (getAttr eBare "placeholder") "" :=
  ⟨(c9_missing_attribute_defaults eBare eBare eBare eBare eBare).1 rfl,
   (c9_missing_attribute_defaults eBare eBare eBare eBare eBare).2.2.1 rfl⟩

/-- C10: the Main Containers section prints at most five lines: whatever the
page holds, only the first five elements matching the container selector, in
the library's match order, have their class attribute printed. -/
theorem c10_containers_capped (pg : Page) :
    ((queryContainers pg.dom).take 5).length ≤ 5 ∧
    ∃ pre post,
      scriptTrace pg =
        pre ++ ((queryContainers pg.dom).take 5).map
          (fun e => Event.print (containerLine e)) ++ post := by
  constructor
  · rw [List.length_take]
    exact min_le_left _ _
  · refine ⟨[Event.launch, Event.newPage 1280 900, Event.goto fixedUrl,
      Event.waitForLoadState "domcontentloaded", Event.waitForTimeout 2000,
      Event.screenshot screenshotPath true,
      Event.print "Screenshot saved to /tmp/login_page.png",
      Event.print ("\nPage title: " ++ pg.title),
      Event.print "\n--- Page Content ---",
      Event.query "body",
      Event.print (printedBody pg.bodyInnerText),
      Event.print "\n--- Buttons Found ---",
      Event.query "button"]
      ++ (queryButtons pg.dom).map (fun e => Event.print (buttonLine e))
      ++ [Event.print "\n--- Links Found ---", Event.query "a"]
      ++ (queryLinks pg.dom).map (fun e => Event.print (linkLine e))
      ++ [Event.print "\n--- Form Inputs Found ---", Event.query "input"]
      ++ (queryInputs pg.dom).map (fun e => Event.print (inputLine e))
      ++ [Event.print "\n--- Google OAuth Elements ---",
          Event.query googleSelector]
      ++ (queryGoogle pg.dom).map (fun e => Event.print (googleLine e))
      ++ [Event.print "\n--- Main Containers ---",
          Event.query containerSelector],
      [Event.close, Event.print "\nDone examining login page.",
       Event.stopDriver], ?_⟩
    simp [scriptTrace, List.append_assoc]

end ExamineLogin
